import Mathlib

/-
  Verification development for the SRep refinement engine
  (KitwareMedical/SlicerSRep2).

  Shallow embedding of:
    - src/CommonLibrary/Point3d.cpp                         (Point3d)
    - src/SRepRefinement/Logic/vtkSlicerSRepRefinementLogic.cxx
                                                            (Refiner and helpers)
  Collaborator classes whose sources are not part of the three input files
  (Vector3d, Spoke, vtkEllipticalSRep, min_newuoa, the interpolator and the
  VTK/ITK image pipeline) are modelled from the specification, as documented
  on each definition.

  Real numbers stand for C++ doubles (exact arithmetic); fallible code
  returns Option / Except.
-/

namespace SRep2

/-! ### Point3d — embedded from src/CommonLibrary/Point3d.cpp.
Construction rejects NaN components; since we embed doubles as real numbers,
NaN-free points are exactly the representable points, so `Point3d` carries
three unconstrained reals. -/

structure Point3d where
  X : ℝ
  Y : ℝ
  Z : ℝ

/-- Lexicographic comparison, `operator<` of Point3d.cpp:
`(a.GetX() != b.GetX()) ? (a.GetX() < b.GetX()) : ((a.GetY() != b.GetY()) ? (a.GetY() < b.GetY()) : (a.GetZ() < b.GetZ()))`. -/
def Point3d.lt (a b : Point3d) : Prop :=
  if a.X ≠ b.X then a.X < b.X
  else if a.Y ≠ b.Y then a.Y < b.Y
  else a.Z < b.Z

/-- Equality test, `operator==` of Point3d.cpp: `!(a < b) && !(b < a)`. -/
def Point3d.eq (a b : Point3d) : Prop :=
  ¬ Point3d.lt a b ∧ ¬ Point3d.lt b a

/-- Squared Euclidean distance; the collaborator `vtkMath::Distance2BetweenPoints`. -/
noncomputable def Distance2BetweenPoints (a b : Point3d) : ℝ :=
  (a.X - b.X) ^ 2 + (a.Y - b.Y) ^ 2 + (a.Z - b.Z) ^ 2

/-- Point3d::Distance of Point3d.cpp: `pow(distSquared, 0.5)` (real power). -/
noncomputable def Point3d.Distance (a b : Point3d) : ℝ :=
  (Distance2BetweenPoints a b) ^ ((1 : ℝ) / 2)

/-! ### Vector3d — modelled from the spec (CommonLibrary Vector3d is not among
the input source files): "3 real-valued components ... supports
unit-normalization, scalar scaling, and elementwise subtraction/addition;
a zero vector has undefined unit direction".  Real division by zero is 0 in
Lean, so `Unit` of the zero vector is the zero vector (that case is exactly
the "undefined, must be guarded" case of the spec and is excluded by
hypotheses wherever it matters). -/

structure Vector3d where
  X : ℝ
  Y : ℝ
  Z : ℝ

noncomputable def Vector3d.GetLength (v : Vector3d) : ℝ :=
  Real.sqrt (v.X ^ 2 + v.Y ^ 2 + v.Z ^ 2)

/-- Modelled from the spec: unit-normalization (componentwise division by the length). -/
noncomputable def Vector3d.Unit (v : Vector3d) : Vector3d :=
  ⟨v.X / v.GetLength, v.Y / v.GetLength, v.Z / v.GetLength⟩

/-- Modelled from the spec: scalar scaling (`vector * scalar` in the C++ sources). -/
noncomputable def Vector3d.smul (v : Vector3d) (c : ℝ) : Vector3d :=
  ⟨v.X * c, v.Y * c, v.Z * c⟩

/-- Modelled from the spec: elementwise subtraction. -/
noncomputable def Vector3d.sub (a b : Vector3d) : Vector3d :=
  ⟨a.X - b.X, a.Y - b.Y, a.Z - b.Z⟩

/-- Modelled from the spec: componentwise division by a scalar
(`vector / scalar`, used in the finite differences). -/
noncomputable def Vector3d.sdiv (v : Vector3d) (c : ℝ) : Vector3d :=
  ⟨v.X / c, v.Y / c, v.Z / c⟩

/-- Translation of a point by a vector (boundary point = skeletal point + direction). -/
noncomputable def Point3d.add (p : Point3d) (v : Vector3d) : Point3d :=
  ⟨p.X + v.X, p.Y + v.Y, p.Z + v.Z⟩

/-! ### Spoke — modelled from the spec (CommonLibrary Spoke is not among the
input source files): "an skeletal anchor point plus a direction vector whose
magnitude is the spoke's radius/length. Boundary point = skeletal point +
direction. Mutation operations: set radius only (direction unchanged), set
direction+magnitude atomically, move the skeletal point." -/

structure Spoke where
  skeletalPoint : Point3d
  direction : Vector3d

def Spoke.GetSkeletalPoint (s : Spoke) : Point3d := s.skeletalPoint

def Spoke.GetDirection (s : Spoke) : Vector3d := s.direction

noncomputable def Spoke.GetRadius (s : Spoke) : ℝ := s.direction.GetLength

noncomputable def Spoke.GetBoundaryPoint (s : Spoke) : Point3d :=
  s.skeletalPoint.add s.direction

/-- Modelled from the spec: "set radius only (direction unchanged)" — the
direction is rescaled to the requested magnitude. -/
noncomputable def Spoke.SetRadius (s : Spoke) (r : ℝ) : Spoke :=
  { s with direction := s.direction.Unit.smul r }

/-- Modelled from the spec: "set direction+magnitude atomically". -/
def Spoke.SetDirectionAndMagnitude (s : Spoke) (v : Vector3d) : Spoke :=
  { s with direction := v }

/-- Modelled from the spec: "move the skeletal point". -/
def Spoke.SetSkeletalPoint (s : Spoke) (p : Point3d) : Spoke :=
  { s with skeletalPoint := p }

/-! ### The elliptical grid — modelled from the spec (vtkEllipticalSRep is not
among the input source files): a 2D sequence of skeletal points, `lines ×
steps`, each point owning one spoke per orientation; `IsCrest` iff the step
index is the maximal one; empty iff there are no lines.  `spokes` is total
over the index types; only indices below `numLines`/`numSteps` are meaningful. -/

inductive SpokeType where
  | UpOrientation
  | DownOrientation
  | CrestOrientation
deriving DecidableEq

structure EllipticalSRep where
  numLines : ℕ
  numSteps : ℕ
  spokes : ℕ → ℕ → SpokeType → Spoke

def EllipticalSRep.IsEmpty (g : EllipticalSRep) : Prop := g.numLines = 0

instance (g : EllipticalSRep) : Decidable g.IsEmpty := by
  unfold EllipticalSRep.IsEmpty; infer_instance

/-- Modelled from the spec: "Classification IsCrest() == (step == max step)". -/
def isCrestStep (numSteps step : ℕ) : Prop := step = numSteps - 1

instance (numSteps step : ℕ) : Decidable (isCrestStep numSteps step) := by
  unfold isCrestStep; infer_instance

/-! ### Refiner::Refine — vtkSlicerSRepRefinementLogic.cxx lines 590-620.
Rebuilds a candidate grid from the base grid by applying the flattened
coefficient vector (4 doubles per skeletal point) to every spoke of the given
orientation.  The C++ clones the grid and mutates the clone; the embedding
returns the new grid as a value.  A crest orientation throws
`std::invalid_argument` in the C++, embedded as `none`. -/

/-- Reconstructed radius inside Refiner::Refine: `exp(coeff[c]) * oldRadius`
(the exponential re-parameterization of the radius). -/
noncomputable def newRadiusOf (c oldRadius : ℝ) : ℝ :=
  Real.exp c * oldRadius

/-- Per-spoke body of the loop in Refiner::Refine: take the new unit direction
from three coefficients and the new radius from the exponential of the fourth;
skip the update when everything is within `tolerance = 1e-13`. -/
noncomputable def refineSpokeFromCoeff (spoke : Spoke) (c0 c1 c2 c3 : ℝ) : Spoke :=
  let tolerance : ℝ := 1e-13
  let oldRadius := spoke.GetRadius
  let oldUnitDir := spoke.GetDirection.Unit
  let newUnitDir : Vector3d := ⟨c0, c1, c2⟩
  let newRadius := newRadiusOf c3 oldRadius
  if |oldRadius - newRadius| ≥ tolerance
      ∨ |oldUnitDir.X - newUnitDir.X| ≥ tolerance
      ∨ |oldUnitDir.Y - newUnitDir.Y| ≥ tolerance
      ∨ |oldUnitDir.Z - newUnitDir.Z| ≥ tolerance then
    spoke.SetDirectionAndMagnitude (newUnitDir.smul newRadius)
  else
    spoke

/-- Refiner::Refine.  The coefficient index of spoke `(l, s)` is
`4 * (l * numSteps + s)`, matching the sequential `c += 4` walk of the C++
over the row-major loop. -/
noncomputable def Refine (srep : EllipticalSRep) (coeff : ℕ → ℝ)
    (spokeType : SpokeType) : Option EllipticalSRep :=
  match spokeType with
  | SpokeType.CrestOrientation => none
  | _ =>
    some { srep with
      spokes := fun l s t =>
        if l < srep.numLines ∧ s < srep.numSteps ∧ t = spokeType then
          let c := 4 * (l * srep.numSteps + s)
          refineSpokeFromCoeff (srep.spokes l s t)
            (coeff c) (coeff (c + 1)) (coeff (c + 2)) (coeff (c + 3))
        else srep.spokes l s t }

/-! ### Bounds normalization — vtkSlicerSRepRefinementLogic.cxx. -/

/-- Axis-aligned bounding box, `std::array<double, 6>` in the C++: fields
`b0..b5` are `xmin, xmax, ymin, ymax, zmin, zmax`. -/
structure Bounds where
  b0 : ℝ
  b1 : ℝ
  b2 : ℝ
  b3 : ℝ
  b4 : ℝ
  b5 : ℝ

/-- ComputePolyDataToImageDataNewBounds (lines 123-165): put the longest axis
to `[0,1]` and scale the other coordinates accordingly, centered at 0.5.
The final branch is unreachable (the three conditions are exhaustive; the C++
would return uninitialized memory there). -/
noncomputable def ComputePolyDataToImageDataNewBounds (bounds : Bounds) : Bounds :=
  let range0 := bounds.b1 - bounds.b0
  let range1 := bounds.b3 - bounds.b2
  let range2 := bounds.b5 - bounds.b4
  let ratioYX := range1 / range0
  let ratioZX := range2 / range0
  let ratioZY := range2 / range1
  if range0 ≥ range1 ∧ range0 ≥ range2 then
    ⟨0, 1,
     0.5 - 0.5 * ratioYX, 0.5 + 0.5 * ratioYX,
     0.5 - 0.5 * ratioZX, 0.5 + 0.5 * ratioZX⟩
  else if range1 ≥ range0 ∧ range1 ≥ range2 then
    ⟨0.5 - 0.5 / ratioYX, 0.5 + 0.5 / ratioYX,
     0, 1,
     0.5 - 0.5 * ratioZY, 0.5 + 0.5 * ratioZY⟩
  else if range2 ≥ range0 ∧ range2 ≥ range1 then
    ⟨0.5 - 0.5 / ratioZX, 0.5 + 0.5 / ratioZX,
     0.5 - 0.5 / ratioZY, 0.5 + 0.5 / ratioZY,
     0, 1⟩
  else
    ⟨0, 0, 0, 0, 0, 0⟩

/-- The dominant (longest) axis range of a bounding box; introduced to state
the aspect-preservation property of the normalization. -/
noncomputable def dominantRange (bounds : Bounds) : ℝ :=
  max (bounds.b1 - bounds.b0) (max (bounds.b3 - bounds.b2) (bounds.b5 - bounds.b4))

/-- The affine srep-to-image transform produced by
CreateBoundsToImageCoordsTransform (lines 82-120).  The produced 4x4 matrix
has only the three diagonal scale entries and the three translation entries
set, so it is embedded as those six numbers; applying it to a point is
`scale * p + translation` per axis. -/
structure ImageTransform where
  sx : ℝ
  sy : ℝ
  sz : ℝ
  tx : ℝ
  ty : ℝ
  tz : ℝ

/-- CreateBoundsToImageCoordsTransform (lines 82-120). -/
noncomputable def CreateBoundsToImageCoordsTransform (bounds : Bounds) : ImageTransform :=
  let xRange := bounds.b1 - bounds.b0
  let yRange := bounds.b3 - bounds.b2
  let zRange := bounds.b5 - bounds.b4
  let transfomedRanges :=
    if xRange ≥ yRange ∧ xRange ≥ zRange then
      ((1 : ℝ), yRange / xRange, zRange / xRange)
    else if yRange ≥ xRange ∧ yRange ≥ zRange then
      (xRange / yRange, (1 : ℝ), zRange / yRange)
    else -- zRange is the largest
      (xRange / zRange, yRange / zRange, (1 : ℝ))
  let xRangeTrans := transfomedRanges.1
  let yRangeTrans := transfomedRanges.2.1
  let zRangeTrans := transfomedRanges.2.2
  let xOriginTrans := 0.5 - xRangeTrans / 2
  let yOriginTrans := 0.5 - yRangeTrans / 2
  let zOriginTrans := 0.5 - zRangeTrans / 2
  { sx := xRangeTrans / xRange
    sy := yRangeTrans / yRange
    sz := zRangeTrans / zRange
    tx := xOriginTrans - xRangeTrans * bounds.b0 / xRange
    ty := yOriginTrans - yRangeTrans * bounds.b2 / yRange
    tz := zOriginTrans - zRangeTrans * bounds.b4 / zRange }

/-- Application of the transform to a point (vtkMatrix4x4::MultiplyPoint with
the matrix built above, homogeneous coordinate 1). -/
noncomputable def ImageTransform.apply (t : ImageTransform) (p : Point3d) : Point3d :=
  ⟨t.sx * p.X + t.tx, t.sy * p.Y + t.ty, t.sz * p.Z + t.tz⟩

/-! ### Objective-function evaluation — Refiner::EvaluateObjectiveFunction and
its helpers. -/

/-- Clamp helper (lines 68-70): `val < min ? min : (val > max ? max : val)`,
here on the integer image indices it is applied to. -/
def Clamp (val lo hi : ℤ) : ℤ :=
  if val < lo then lo else if val > hi then hi else val

/-- Pow helper (lines 73-79): integer power by repeated multiplication. -/
def PowLoop (val expo : ℕ) : ℕ :=
  (List.range expo).foldl (fun ret _ => ret * val) 1

/-- Normalization of the sampled gradient, the collaborator
`vtkMath::Normalize`: divide by the norm unless it is zero. -/
noncomputable def vtkNormalize (v : Vector3d) : Vector3d :=
  if v.GetLength ≠ 0 then v.sdiv v.GetLength else v

/-- Dot product of two 3-vectors (`vtkMath::Dot`). -/
noncomputable def vtkDot (a b : Vector3d) : ℝ :=
  a.X * b.X + a.Y * b.Y + a.Z * b.Z

/-- The read-only per-run data consumed by the evaluation: the srep-to-image
transform, the voxel spacing, and the signed distance / gradient images.  The
images are total functions of the (clamped, hence in-range) integer voxel
index — `GetPixel` of an in-range index cannot fail. -/
structure ImageSampler where
  transform : ImageTransform
  voxelSpacing : ℝ
  sdf : ℤ → ℤ → ℤ → ℝ
  grad : ℤ → ℤ → ℤ → Vector3d

/-- Per-spoke body of ComputeDistanceSquaredAndNormalToImage (lines 623-671):
transform the boundary point into image coordinates, clamp the rounded voxel
index, sample distance and gradient, and return the squared-distance and
distance-weighted normal-mismatch contributions.  `std::lround` is embedded
as `round` (they differ only on exact negative half-integers). -/
noncomputable def spokeImageTerms (sampler : ImageSampler) (spoke : Spoke) : ℝ × ℝ :=
  let boundaryPoint := spoke.GetBoundaryPoint
  let transformed := sampler.transform.apply boundaryPoint
  let maxIndex : ℤ := round (1 / sampler.voxelSpacing) - 1
  let x := Clamp (round (transformed.X / sampler.voxelSpacing)) 0 maxIndex
  let y := Clamp (round (transformed.Y / sampler.voxelSpacing)) 0 maxIndex
  let z := Clamp (round (transformed.Z / sampler.voxelSpacing)) 0 maxIndex
  let dist := sampler.sdf x y z
  let distSquared := dist * dist
  let normalVector := vtkNormalize (sampler.grad x y z)
  let dotProduct := vtkDot normalVector spoke.GetDirection.Unit
  (distSquared, distSquared * (1 - dotProduct))

/-- ComputeDistanceSquaredAndNormalToImage (lines 623-671): accumulate the two
sums over every skeletal point's spoke of the given orientation, in row-major
order. -/
noncomputable def ComputeDistanceSquaredAndNormalToImage (sampler : ImageSampler)
    (srep : EllipticalSRep) (spokeType : SpokeType) : ℝ × ℝ :=
  (List.range srep.numLines).foldl (fun acc l =>
    (List.range srep.numSteps).foldl (fun acc s =>
      let terms := spokeImageTerms sampler (srep.spokes l s spokeType)
      (acc.1 + terms.1, acc.2 + terms.2)) acc) (0, 0)

/-- ComputeRSradDerivatives (lines 674-717): centered finite differences along
the (toroidal) line axis and centered-or-one-sided differences along the
(clamped) step axis.  Returns `(dxdu, dSdu, drdu, dxdv, dSdv, drdv)`. -/
noncomputable def ComputeRSradDerivatives (interpolatedSRep : EllipticalSRep)
    (spokeType : SpokeType) (line step : ℕ) (interpolationLevel : ℕ) :
    Vector3d × Vector3d × ℝ × Vector3d × Vector3d × ℝ :=
  let density := PowLoop 2 interpolationLevel
  let stepSize : ℝ := 1 / density
  let numLines := interpolatedSRep.numLines
  let numSteps := interpolatedSRep.numSteps
  -- U direction
  let prevLine := (numLines + line - 1) % numLines
  let nextLine := (numLines + line + 1) % numLines
  let u1 := interpolatedSRep.spokes prevLine step spokeType
  let u2 := interpolatedSRep.spokes nextLine step spokeType
  let drdu := (u2.GetRadius - u1.GetRadius) / stepSize / 2
  let dxdu := ((u2.GetDirection.Unit.sub u1.GetDirection.Unit).sdiv stepSize).sdiv 2
  let dSdu := ((u2.GetDirection.sub u1.GetDirection).sdiv stepSize).sdiv 2
  -- V direction
  let prevStep := if step = 0 then 0 else step - 1
  let nextStep := if step = numSteps - 1 then numSteps - 1 else step + 1
  let divisor : ℝ := if prevStep = step ∨ nextStep = step then 1 else 2
  let v1 := interpolatedSRep.spokes line prevStep spokeType
  let v2 := interpolatedSRep.spokes line nextStep spokeType
  let drdv := (v2.GetRadius - v1.GetRadius) / stepSize / divisor
  let dxdv := ((v2.GetDirection.Unit.sub v1.GetDirection.Unit).sdiv stepSize).sdiv divisor
  let dSdv := ((v2.GetDirection.sub v1.GetDirection).sdiv stepSize).sdiv divisor
  (dxdu, dSdu, drdu, dxdv, dSdv, drdv)

/-- Larger eigenvalue computed by Eigen's SelfAdjointEigenSolver on a 2x2
matrix: the solver reads only the lower triangle `(a00, a10, a11)`, and
`eigenvalues()[1]` is the larger root of the characteristic polynomial. -/
noncomputable def selfAdjointMaxEigen2x2 (a00 a10 a11 : ℝ) : ℝ :=
  ((a00 + a11) + Real.sqrt ((a00 - a11) ^ 2 + 4 * a10 ^ 2)) / 2

/-- Per-node body of the loop in ComputeRSradPenalty (lines 739-795): assemble
the rSrad matrix from the finite-difference derivatives and contribute
`max(0, maxEigenvalue - 1)`.  The 2x2 inverse is written out by adjugate over
determinant, as Eigen computes it; the C++ does not guard a singular
determinant (real division by zero is 0 here, infinities in C++ — the spec
notes this as an unguarded open question). -/
noncomputable def rSradNodePenalty (interpolatedSRep : EllipticalSRep)
    (spokeType : SpokeType) (ii jj : ℕ) (interpolationLevel : ℕ) : ℝ :=
  let derivs := ComputeRSradDerivatives interpolatedSRep spokeType ii jj interpolationLevel
  let dxdu := derivs.1
  let dSdu := derivs.2.1
  let drdu := derivs.2.2.1
  let dxdv := derivs.2.2.2.1
  let dSdv := derivs.2.2.2.2.1
  let drdv := derivs.2.2.2.2.2
  let U := (interpolatedSRep.spokes ii jj spokeType).GetDirection.Unit
  -- UTU = U^T * U - I
  let utu00 := U.X * U.X - 1
  let utu01 := U.X * U.Y
  let utu02 := U.X * U.Z
  let utu10 := U.Y * U.X
  let utu11 := U.Y * U.Y - 1
  let utu12 := U.Y * U.Z
  let utu20 := U.Z * U.X
  let utu21 := U.Z * U.Y
  let utu22 := U.Z * U.Z - 1
  -- Q (2x3)
  let q00 := dxdu.X * utu00 + dxdu.Y * utu10 + dxdu.Z * utu20
  let q01 := dxdu.X * utu01 + dxdu.Y * utu11 + dxdu.Z * utu21
  let q02 := dxdu.X * utu02 + dxdu.Y * utu12 + dxdu.Z * utu22
  let q10 := dxdv.X * utu00 + dxdv.Y * utu10 + dxdv.Z * utu20
  let q11 := dxdv.X * utu01 + dxdv.Y * utu11 + dxdv.Z * utu21
  let q12 := dxdv.X * utu02 + dxdv.Y * utu12 + dxdv.Z * utu22
  -- leftSide (2x3)
  let ls00 := dSdu.X - drdu * U.X
  let ls01 := dSdu.Y - drdu * U.Y
  let ls02 := dSdu.Z - drdu * U.Z
  let ls10 := dSdv.X - drdv * U.X
  let ls11 := dSdv.Y - drdv * U.Y
  let ls12 := dSdv.Z - drdv * U.Z
  -- QQT = Q * Q^T (2x2, symmetric) and its inverse by adjugate / determinant
  let qqt00 := q00 * q00 + q01 * q01 + q02 * q02
  let qqt01 := q00 * q10 + q01 * q11 + q02 * q12
  let qqt10 := q10 * q00 + q11 * q01 + q12 * q02
  let qqt11 := q10 * q10 + q11 * q11 + q12 * q12
  let det := qqt00 * qqt11 - qqt01 * qqt10
  let inv00 := qqt11 / det
  let inv01 := -qqt01 / det
  let inv10 := -qqt10 / det
  let inv11 := qqt00 / det
  -- rightSide = Q^T * QQT_inv (3x2)
  let rs00 := q00 * inv00 + q10 * inv10
  let rs01 := q00 * inv01 + q10 * inv11
  let rs10 := q01 * inv00 + q11 * inv10
  let rs11 := q01 * inv01 + q11 * inv11
  let rs20 := q02 * inv00 + q12 * inv10
  let rs21 := q02 * inv01 + q12 * inv11
  -- rSradMat = leftSide * rightSide (2x2), then transposed in place
  let m00 := ls00 * rs00 + ls01 * rs10 + ls02 * rs20
  let m01 := ls00 * rs01 + ls01 * rs11 + ls02 * rs21
  let _m10 := ls10 * rs00 + ls11 * rs10 + ls12 * rs20
  let m11 := ls10 * rs01 + ls11 * rs11 + ls12 * rs21
  -- after transposeInPlace, the lower triangle is (m00, m01, m11)
  let t00 := m00
  let t10 := m01
  let t11 := m11
  let maxEigen := selfAdjointMaxEigen2x2 t00 t10 t11
  max 0 (maxEigen - 1)

/-- ComputeRSradPenalty (lines 721-799): sum the per-node penalty over the
primary (stride = density) grid nodes. -/
noncomputable def ComputeRSradPenalty (interpolatedSRep : EllipticalSRep)
    (spokeType : SpokeType) (interpolationLevel : ℕ) : ℝ :=
  if interpolatedSRep.IsEmpty then 0
  else
    let density := PowLoop 2 interpolationLevel
    let numLines := interpolatedSRep.numLines / density
    let numSteps := interpolatedSRep.numSteps / density
    (List.range numLines).foldl (fun acc i =>
      (List.range numSteps).foldl (fun acc j =>
        acc + rSradNodePenalty interpolatedSRep spokeType (i * density) (j * density)
          interpolationLevel) acc) 0

/-- State of the Refiner relevant to objective evaluation: the live base grid,
the per-run read-only image data, the tuning weights, the iteration counter,
and the interpolation collaborator `SmartInterpolateSRep` ("`Interpolate(grid,
level) -> finer grid`" per the spec), embedded as an Option-valued oracle
because the C++ call can throw. -/
structure Refiner where
  srep : EllipticalSRep
  sampler : ImageSampler
  interpolationLevel : ℕ
  interpolate : EllipticalSRep → ℕ → Option EllipticalSRep
  L0Weight : ℝ
  L1Weight : ℝ
  L2Weight : ℝ
  iteration : ℕ

/-- Refiner::IncrementIteration restricted to its effect on this state (the
progress report it emits is modelled separately by `ProgressTracker`). -/
def Refiner.IncrementIteration (st : Refiner) : Refiner :=
  { st with iteration := st.iteration + 1 }

/-- The fallible steps of Refiner::EvaluateObjectiveFunction (lines 816-840),
i.e. the body of the `try` block up to the three energy terms: rebuild the
candidate grid, interpolate it, and compute L0, L1 and L2. -/
noncomputable def EvaluateObjectiveFunctionCore (st : Refiner) (coeff : ℕ → ℝ)
    (spokeType : SpokeType) : Option (ℝ × ℝ × ℝ) := do
  let tempSRep ← Refine st.srep coeff spokeType
  let interpolatedTempSRep ← st.interpolate tempSRep st.interpolationLevel
  let L0AndL1 := ComputeDistanceSquaredAndNormalToImage st.sampler interpolatedTempSRep spokeType
  let srad := ComputeRSradPenalty interpolatedTempSRep spokeType st.interpolationLevel
  pure (L0AndL1.1, L0AndL1.2, srad)

/-- Refiner::EvaluateObjectiveFunction (lines 816-840): on success, the
weighted sum of the three energies plus an iteration increment; any failure
inside the try block is caught and the sentinel `1e10` is returned with the
state untouched ("this function cannot throw because it will cause a memory
leak in min_newuoa"). -/
noncomputable def EvaluateObjectiveFunction (st : Refiner) (coeff : ℕ → ℝ)
    (spokeType : SpokeType) : ℝ × Refiner :=
  match EvaluateObjectiveFunctionCore st coeff spokeType with
  | some (distanceSquared, normalPenalty, srad) =>
    (distanceSquared * st.L0Weight + normalPenalty * st.L1Weight + srad * st.L2Weight,
     st.IncrementIteration)
  | none => (1e10, st)

/-! ### Crest passes — Refiner::OptimizeCrestSpokeLengths (lines 461-500) and
Refiner::RefineCrestSpokes (lines 503-559). -/

/-- Loop body of OptimizeCrestSpokeLengths for one crest spoke: iteratively
lengthen/shorten the spoke by the current step until the implicit distance of
its boundary point is within `epsilon = 1e-5`, decaying the step by 10 on each
sign flip.  `distFn` is the collaborator `vtkImplicitPolyDataDistance::
FunctionValue`; the recursion argument is the remaining iteration budget, and
`dist`/`oldDist`/`thisStepSize` are the loop-carried locals of the C++. -/
noncomputable def OptimizeCrestSpokeLengthLoop (distFn : Point3d → ℝ) :
    Spoke → ℝ → ℝ → ℝ → ℕ → Spoke
  | spoke, _, _, _, 0 => spoke
  | spoke, dist, oldDist, thisStepSize, i + 1 =>
    if |dist| ≤ (1e-5 : ℝ) then spoke
    else
      let spoke' := if dist > 0
        then spoke.SetRadius (spoke.GetRadius - thisStepSize)
        else spoke.SetRadius (spoke.GetRadius + thisStepSize)
      let dist' := distFn spoke'.GetBoundaryPoint
      let thisStepSize' := if oldDist * dist' < 0 then thisStepSize / 10 else thisStepSize
      OptimizeCrestSpokeLengthLoop distFn spoke' dist' dist' thisStepSize' i

/-- Per-crest-spoke part of OptimizeCrestSpokeLengths (lines 461-500):
measure the initial implicit distance of the boundary point, then run the
step-decay loop for at most `maxIter` iterations. -/
noncomputable def OptimizeCrestSpokeLength (distFn : Point3d → ℝ) (stepSize : ℝ)
    (maxIter : ℕ) (spoke : Spoke) : Spoke :=
  let dist := distFn spoke.GetBoundaryPoint
  OptimizeCrestSpokeLengthLoop distFn spoke dist dist stepSize maxIter

/-- Per-crest-spoke body of the curvature-correction loop in
RefineCrestSpokes (lines 533-558): `rCrest = 1 / max(|curMax|, |curMin|)`;
when the current radius exceeds it, move the skeletal point outward along the
unit direction by the excess and shrink the radius to `rCrest`; otherwise
leave the spoke unchanged (`continue`). -/
noncomputable def RefineCrestSpokeCurvature (curMax curMin : ℝ) (spoke : Spoke) : Spoke :=
  let rCrest := 1 / max |curMax| |curMin|
  let rDiff := spoke.GetRadius - rCrest
  if rDiff ≤ 0 then spoke
  else
    let unitDir := spoke.GetDirection.Unit
    ((spoke.SetSkeletalPoint
      ⟨spoke.GetSkeletalPoint.X + unitDir.X * rDiff,
       spoke.GetSkeletalPoint.Y + unitDir.Y * rDiff,
       spoke.GetSkeletalPoint.Z + unitDir.Z * rDiff⟩).SetRadius rCrest)

/-! ### Progress reporting — Refiner::Run (lines 380-393),
Refiner::IncrementIteration / Refiner::ReportProgress (lines 437-449).
`ProgressTracker` is the projection of the Refiner onto the state that the
progress side channel depends on: `m_iteration`, `m_totalProgressIterations`,
and the ordered list of `m_iteration` values at which the callback fired (the
callback receives `iteration / totalProgressIterations`). -/

structure ProgressTracker where
  iteration : ℕ
  totalProgressIterations : ℕ
  reports : List ℕ

/-- Refiner::ReportProgress: fire the callback with the current iteration. -/
def ProgressTracker.ReportProgress (st : ProgressTracker) : ProgressTracker :=
  { st with reports := st.reports ++ [st.iteration] }

/-- Refiner::IncrementIteration: `++m_iteration; ReportProgress();`. -/
def ProgressTracker.IncrementIteration (st : ProgressTracker) : ProgressTracker :=
  ProgressTracker.ReportProgress { st with iteration := st.iteration + 1 }

/-- Assignment `m_iteration = n;` (no report). -/
def ProgressTracker.SetIteration (st : ProgressTracker) (n : ℕ) : ProgressTracker :=
  { st with iteration := n }

/-- `n` consecutive IncrementIteration calls. -/
def ProgressTracker.Increments (st : ProgressTracker) : ℕ → ProgressTracker
  | 0 => st
  | n + 1 => (st.Increments n).IncrementIteration

/-- Progress effect of one line of the crest loops (both OptimizeCrestSpokeLengths
and the curvature loop of RefineCrestSpokes walk every step of the line and
call IncrementIteration exactly at the crest skeletal point,
`IsCrest ⟺ step = numSteps - 1`). -/
def crestStepLoop (numSteps : ℕ) (st : ProgressTracker) : ProgressTracker :=
  (List.range numSteps).foldl
    (fun acc s => if isCrestStep numSteps s then acc.IncrementIteration else acc) st

/-- Progress effect of one whole crest pass: the loop over all lines. -/
def crestLinesLoop (numLines numSteps : ℕ) (st : ProgressTracker) : ProgressTracker :=
  (List.range numLines).foldl (fun acc _ => crestStepLoop numSteps acc) st

/-- Progress trace of Refiner::Run (lines 380-393) on a non-empty grid.
Modelled from the spec where it leaves src/: `min_newuoa` (Private/newuoa.h is
not among the input source files) evaluates the objective as a black box "for
up to maxIterations evaluations"; each evaluation that does not fail calls
IncrementIteration, so the up and down passes contribute `e1` and `e2`
increments with `e1, e2 ≤ maxIterations`.  Everything else follows the source:
the initial report at iteration 0, the checkpoint assignments to
`1 * maxIterations` and `2 * maxIterations` followed by a report, the two
crest loops, and the final assignment to `m_totalProgressIterations`
(which emits no report).  `m_totalProgressIterations = 2 * maxIterations +
2 * numLines` per the constructor (line 370). -/
def RunProgress (maxIterations numLines numSteps e1 e2 : ℕ) : ProgressTracker :=
  let total := 2 * maxIterations + 2 * numLines
  let st0 : ProgressTracker := ⟨0, total, []⟩
  let st1 := st0.ReportProgress
  let st2 := st1.Increments e1
  let st3 := (st2.SetIteration (1 * maxIterations)).ReportProgress
  let st4 := st3.Increments e2
  let st5 := (st4.SetIteration (2 * maxIterations)).ReportProgress
  let st6 := crestLinesLoop numLines numSteps st5
  let st7 := crestLinesLoop numLines numSteps st6
  st7.SetIteration total

/-- The values handed to the progress callback, in order:
`m_iteration / m_totalProgressIterations` at each report. -/
def ProgressTracker.values (st : ProgressTracker) : List ℚ :=
  st.reports.map (fun i : ℕ => (i : ℚ) / (st.totalProgressIterations : ℚ))

/-- The progress-fraction stream of one complete refinement run. -/
def progressValues (maxIterations numLines numSteps e1 e2 : ℕ) : List ℚ :=
  (RunProgress maxIterations numLines numSteps e1 e2).values

/-! ### Orchestration entry point — vtkSlicerSRepRefinementLogic::Run
(lines 934-980). -/

inductive RefinementError where
  | invalidArgument (msg : String)
deriving DecidableEq

/-- The MRML srep node: `GetSRep()` may be null. -/
structure SRepNode where
  srep : Option EllipticalSRep

/-- The MRML model node.  Its poly data is consumed only by the refiner, which
is abstract in this entry-point embedding. -/
structure ModelNode where
  polyData : Option Unit

/-- vtkSlicerSRepRefinementLogic::Run (lines 934-980): the four validation
checks in source order, then the call to RefineSRep, whose Refiner constructor
eagerly builds the distance field.  The second component of the result counts
distance-field constructions (the expensive work): 0 on every validation
failure, 1 on the path that reaches RefineSRep.  `refineSRep` abstracts the
whole refinement; the validation result does not depend on it. -/
def LogicRun (model : Option ModelNode) (srepNode : Option SRepNode)
    (maxIterations interpolationLevel : ℤ)
    (refineSRep : EllipticalSRep → ModelNode → EllipticalSRep) :
    Except RefinementError EllipticalSRep × ℕ :=
  match model with
  | none => (Except.error (RefinementError.invalidArgument
      "Cannot refine an SRep with a null model"), 0)
  | some model =>
    match srepNode with
    | none => (Except.error (RefinementError.invalidArgument
        "Cannot refine an SRep with a null srep"), 0)
    | some srepNode =>
      match srepNode.srep with
      | none => (Except.error (RefinementError.invalidArgument
          "Cannot refine an SRep with a null srep"), 0)
      | some srep =>
        if srep.IsEmpty then
          (Except.error (RefinementError.invalidArgument
            "Cannot refine an SRep with a null srep"), 0)
        else if maxIterations < 1 then
          (Except.error (RefinementError.invalidArgument
            "must have at least one iteration"), 0)
        else if interpolationLevel < 0 then
          (Except.error (RefinementError.invalidArgument
            "interpolation level must be non-negative"), 0)
        else
          (Except.ok (refineSRep srep model), 1)

/-! ## Helper lemmas -/

theorem Vector3d.GetLength_nonneg (v : Vector3d) : 0 ≤ v.GetLength :=
  Real.sqrt_nonneg _

theorem Vector3d.GetLength_smul (v : Vector3d) (c : ℝ) :
    (v.smul c).GetLength = |c| * v.GetLength := by
  unfold Vector3d.smul Vector3d.GetLength
  rw [show (v.X * c) ^ 2 + (v.Y * c) ^ 2 + (v.Z * c) ^ 2
      = c ^ 2 * (v.X ^ 2 + v.Y ^ 2 + v.Z ^ 2) from by ring,
    Real.sqrt_mul (sq_nonneg c), Real.sqrt_sq_eq_abs]

theorem Vector3d.Unit_eq_smul (v : Vector3d) :
    v.Unit = v.smul (1 / v.GetLength) := by
  unfold Vector3d.Unit Vector3d.smul
  simp [div_eq_mul_inv, mul_comm]

theorem Vector3d.GetLength_Unit (v : Vector3d) (h : v.GetLength ≠ 0) :
    v.Unit.GetLength = 1 := by
  have hpos : 0 < v.GetLength := lt_of_le_of_ne v.GetLength_nonneg (Ne.symm h)
  rw [Vector3d.Unit_eq_smul, Vector3d.GetLength_smul, abs_of_pos (by positivity)]
  field_simp

/-! ## Claim theorems -/

/-- C1: for every coefficient vector and every spoke orientation,
EvaluateObjectiveFunction is a total function (never raises): if any internal
step of the evaluation fails it returns the sentinel penalty value 1e10, and
otherwise it returns the weighted sum `L0*w0 + L1*w1 + L2*w2` of the three
energy terms. -/
theorem EvaluateObjectiveFunction_sentinel_or_weighted_sum (st : Refiner)
    (coeff : ℕ → ℝ) (spokeType : SpokeType) :
    (EvaluateObjectiveFunctionCore st coeff spokeType = none ∧
      (EvaluateObjectiveFunction st coeff spokeType).1 = 1e10) ∨
    (∃ L0 L1 L2, EvaluateObjectiveFunctionCore st coeff spokeType = some (L0, L1, L2) ∧
      (EvaluateObjectiveFunction st coeff spokeType).1 =
        L0 * st.L0Weight + L1 * st.L1Weight + L2 * st.L2Weight) := by
  rcases h : EvaluateObjectiveFunctionCore st coeff spokeType with _ | ⟨L0, L1, L2⟩
  · exact Or.inl ⟨rfl, by simp [EvaluateObjectiveFunction, h]⟩
  · exact Or.inr ⟨L0, L1, L2, rfl, by simp [EvaluateObjectiveFunction, h]⟩

/-- C2: the radius reconstructed during grid rebuilding in Refiner::Refine,
`exp(coeff) * oldRadius`, is strictly positive whenever the old radius is,
for every coefficient value (including large-magnitude negative ones). -/
theorem newRadiusOf_pos (c oldRadius : ℝ) (h : 0 < oldRadius) :
    0 < newRadiusOf c oldRadius :=
  mul_pos (Real.exp_pos c) h

/-- Witness for C2 at a large-magnitude negative coefficient. -/
theorem newRadiusOf_pos_witness :
    0 < (2 : ℝ) ∧ 0 < newRadiusOf (-1000000) 2 :=
  ⟨two_pos, newRadiusOf_pos (-1000000) 2 two_pos⟩

/-- C7: evaluating the objective function never mutates the live base grid:
the candidate grid is rebuilt from the base grid as a value (Refiner::Refine
clones), and the state coming out of every evaluation carries the base grid
unchanged. -/
theorem EvaluateObjectiveFunction_preserves_base_srep (st : Refiner)
    (coeff : ℕ → ℝ) (spokeType : SpokeType) :
    (EvaluateObjectiveFunction st coeff spokeType).2.srep = st.srep := by
  rcases h : EvaluateObjectiveFunctionCore st coeff spokeType with _ | ⟨L0, L1, L2⟩ <;>
    simp [EvaluateObjectiveFunction, h, Refiner.IncrementIteration]

/-- C8: in the crest length-correction pass, a crest spoke whose boundary
point lies exactly on the implicit surface (signed distance 0) is returned
unchanged: radius, direction, and skeletal point are all the same. -/
theorem OptimizeCrestSpokeLength_zero_dist_unchanged (distFn : Point3d → ℝ)
    (stepSize : ℝ) (maxIter : ℕ) (spoke : Spoke)
    (h : distFn spoke.GetBoundaryPoint = 0) :
    OptimizeCrestSpokeLength distFn stepSize maxIter spoke = spoke := by
  unfold OptimizeCrestSpokeLength
  cases maxIter with
  | zero => rfl
  | succ n =>
    unfold OptimizeCrestSpokeLengthLoop
    rw [h]
    norm_num

/-- Witness for C8: a concrete spoke whose implicit distance oracle vanishes
at its boundary point. -/
theorem OptimizeCrestSpokeLength_zero_dist_unchanged_witness :
    (fun _ : Point3d => (0 : ℝ)) (Spoke.GetBoundaryPoint ⟨⟨0, 0, 0⟩, ⟨1, 0, 0⟩⟩) = 0 ∧
    OptimizeCrestSpokeLength (fun _ => 0) 1 10 ⟨⟨0, 0, 0⟩, ⟨1, 0, 0⟩⟩ =
      ⟨⟨0, 0, 0⟩, ⟨1, 0, 0⟩⟩ :=
  ⟨rfl, OptimizeCrestSpokeLength_zero_dist_unchanged (fun _ => 0) 1 10 _ rfl⟩

theorem Point3d.lt_asymm (a b : Point3d) :
    Point3d.lt a b → Point3d.lt b a → False := by
  intro h1 h2
  unfold Point3d.lt at h1 h2
  by_cases hx : a.X = b.X
  · rw [if_neg (by simp [hx])] at h1
    rw [if_neg (by simp [hx])] at h2
    by_cases hy : a.Y = b.Y
    · rw [if_neg (by simp [hy])] at h1
      rw [if_neg (by simp [hy])] at h2
      exact absurd h2 (not_lt.mpr (le_of_lt h1))
    · rw [if_pos hy] at h1
      rw [if_pos (Ne.symm hy)] at h2
      exact absurd h2 (not_lt.mpr (le_of_lt h1))
  · rw [if_pos hx] at h1
    rw [if_pos (Ne.symm hx)] at h2
    exact absurd h2 (not_lt.mpr (le_of_lt h1))

/-- C9: the lexicographic comparison of Point3d is a total order — for all
points exactly one of `a<b`, `a==b`, `b<a` holds — and Distance is symmetric,
nonnegative, and zero on the diagonal. -/
theorem Point3d_total_order_and_distance (a b : Point3d) :
    ((Point3d.lt a b ∧ ¬ Point3d.eq a b ∧ ¬ Point3d.lt b a) ∨
     (¬ Point3d.lt a b ∧ Point3d.eq a b ∧ ¬ Point3d.lt b a) ∨
     (¬ Point3d.lt a b ∧ ¬ Point3d.eq a b ∧ Point3d.lt b a)) ∧
    Point3d.Distance a b = Point3d.Distance b a ∧
    0 ≤ Point3d.Distance a b ∧
    Point3d.Distance a a = 0 := by
  refine ⟨?_, ?_, ?_, ?_⟩
  · by_cases h1 : Point3d.lt a b
    · exact Or.inl ⟨h1, fun he => he.1 h1, fun h2 => Point3d.lt_asymm a b h1 h2⟩
    · by_cases h2 : Point3d.lt b a
      · exact Or.inr (Or.inr ⟨h1, fun he => he.2 h2, h2⟩)
      · exact Or.inr (Or.inl ⟨h1, ⟨h1, h2⟩, h2⟩)
  · unfold Point3d.Distance
    rw [show Distance2BetweenPoints a b = Distance2BetweenPoints b a from by
      unfold Distance2BetweenPoints; ring]
  · exact Real.rpow_nonneg (by unfold Distance2BetweenPoints; positivity) _
  · unfold Point3d.Distance
    rw [show Distance2BetweenPoints a a = 0 from by
      unfold Distance2BetweenPoints; ring]
    exact Real.zero_rpow (by norm_num)

/-- C6: the crest curvature-based correction with target radius
`rCrest = 1 / max(|curMax|, |curMin|)`: a spoke whose radius is at most
`rCrest` is left unchanged, and a spoke whose radius exceeds `rCrest` has its
skeletal point moved outward along the unit direction by exactly the excess
`radius - rCrest` while its radius becomes `rCrest`. -/
theorem RefineCrestSpokeCurvature_spec (curMax curMin : ℝ) (spoke : Spoke)
    (hc : 0 < max |curMax| |curMin|) (hr : 0 < spoke.GetRadius) :
    (spoke.GetRadius ≤ 1 / max |curMax| |curMin| →
      RefineCrestSpokeCurvature curMax curMin spoke = spoke) ∧
    (1 / max |curMax| |curMin| < spoke.GetRadius →
      (RefineCrestSpokeCurvature curMax curMin spoke).GetSkeletalPoint =
        ⟨spoke.GetSkeletalPoint.X
            + spoke.GetDirection.Unit.X * (spoke.GetRadius - 1 / max |curMax| |curMin|),
          spoke.GetSkeletalPoint.Y
            + spoke.GetDirection.Unit.Y * (spoke.GetRadius - 1 / max |curMax| |curMin|),
          spoke.GetSkeletalPoint.Z
            + spoke.GetDirection.Unit.Z * (spoke.GetRadius - 1 / max |curMax| |curMin|)⟩ ∧
      (RefineCrestSpokeCurvature curMax curMin spoke).GetRadius =
        1 / max |curMax| |curMin|) := by
  have hrC : 0 < 1 / max |curMax| |curMin| := by positivity
  have hlen : spoke.direction.GetLength ≠ 0 := ne_of_gt hr
  constructor
  · intro hle
    unfold RefineCrestSpokeCurvature
    rw [if_pos (by linarith : spoke.GetRadius - 1 / max |curMax| |curMin| ≤ 0)]
  · intro hgt
    unfold RefineCrestSpokeCurvature
    rw [if_neg (by simp only [not_le]; linarith)]
    constructor
    · rfl
    · show ((spoke.SetSkeletalPoint _).SetRadius _).GetRadius = _
      unfold Spoke.SetRadius Spoke.SetSkeletalPoint Spoke.GetRadius
      simp only [Vector3d.GetLength_smul, Vector3d.GetLength_Unit _ hlen,
        abs_of_pos hrC, mul_one]

/-- Witness for C6 at `curMax = 1`, `curMin = 0` and a spoke of radius 2. -/
theorem RefineCrestSpokeCurvature_spec_witness :
    0 < max |(1 : ℝ)| |(0 : ℝ)| ∧
    0 < (Spoke.mk ⟨0, 0, 0⟩ ⟨2, 0, 0⟩).GetRadius ∧
    (((Spoke.mk ⟨0, 0, 0⟩ ⟨2, 0, 0⟩).GetRadius ≤ 1 / max |(1 : ℝ)| |(0 : ℝ)| →
      RefineCrestSpokeCurvature 1 0 (Spoke.mk ⟨0, 0, 0⟩ ⟨2, 0, 0⟩)
        = Spoke.mk ⟨0, 0, 0⟩ ⟨2, 0, 0⟩) ∧
    (1 / max |(1 : ℝ)| |(0 : ℝ)| < (Spoke.mk ⟨0, 0, 0⟩ ⟨2, 0, 0⟩).GetRadius →
      (RefineCrestSpokeCurvature 1 0 (Spoke.mk ⟨0, 0, 0⟩ ⟨2, 0, 0⟩)).GetSkeletalPoint =
        ⟨(Spoke.mk ⟨0, 0, 0⟩ ⟨2, 0, 0⟩).GetSkeletalPoint.X
            + (Spoke.mk ⟨0, 0, 0⟩ ⟨2, 0, 0⟩).GetDirection.Unit.X
              * ((Spoke.mk ⟨0, 0, 0⟩ ⟨2, 0, 0⟩).GetRadius - 1 / max |(1 : ℝ)| |(0 : ℝ)|),
          (Spoke.mk ⟨0, 0, 0⟩ ⟨2, 0, 0⟩).GetSkeletalPoint.Y
            + (Spoke.mk ⟨0, 0, 0⟩ ⟨2, 0, 0⟩).GetDirection.Unit.Y
              * ((Spoke.mk ⟨0, 0, 0⟩ ⟨2, 0, 0⟩).GetRadius - 1 / max |(1 : ℝ)| |(0 : ℝ)|),
          (Spoke.mk ⟨0, 0, 0⟩ ⟨2, 0, 0⟩).GetSkeletalPoint.Z
            + (Spoke.mk ⟨0, 0, 0⟩ ⟨2, 0, 0⟩).GetDirection.Unit.Z
              * ((Spoke.mk ⟨0, 0, 0⟩ ⟨2, 0, 0⟩).GetRadius - 1 / max |(1 : ℝ)| |(0 : ℝ)|)⟩ ∧
      (RefineCrestSpokeCurvature 1 0 (Spoke.mk ⟨0, 0, 0⟩ ⟨2, 0, 0⟩)).GetRadius =
        1 / max |(1 : ℝ)| |(0 : ℝ)|)) := by
  have hc : 0 < max |(1 : ℝ)| |(0 : ℝ)| := by norm_num
  have hr : 0 < (Spoke.mk ⟨0, 0, 0⟩ ⟨2, 0, 0⟩).GetRadius := by
    unfold Spoke.GetRadius Vector3d.GetLength
    simp only []
    rw [Real.sqrt_pos]
    norm_num
  exact ⟨hc, hr, RefineCrestSpokeCurvature_spec 1 0 _ hc hr⟩

/-- C10: whenever the crest curvature correction modifies a spoke (its radius
exceeds the curvature-derived target), its boundary point is preserved exactly
in exact arithmetic: moving the skeletal point outward by the excess while
shrinking the radius to the target keeps `skeletalPoint + radius *
unitDirection` unchanged. -/
theorem RefineCrestSpokeCurvature_boundary_preserved (curMax curMin : ℝ)
    (spoke : Spoke) (hc : 0 < max |curMax| |curMin|) (hr : 0 < spoke.GetRadius)
    (hgt : 1 / max |curMax| |curMin| < spoke.GetRadius) :
    (RefineCrestSpokeCurvature curMax curMin spoke).GetBoundaryPoint =
      spoke.GetBoundaryPoint := by
  have hlen : spoke.direction.GetLength ≠ 0 := ne_of_gt hr
  unfold RefineCrestSpokeCurvature
  rw [if_neg (by simp only [not_le]; exact sub_pos.mpr hgt)]
  unfold Spoke.GetBoundaryPoint Spoke.SetRadius Spoke.SetSkeletalPoint
    Spoke.GetSkeletalPoint Spoke.GetDirection Point3d.add Vector3d.Unit
    Vector3d.smul Spoke.GetRadius
  simp only [Point3d.mk.injEq]
  refine ⟨?_, ?_, ?_⟩ <;> field_simp <;> ring

/-- Witness for C10 at `curMax = 1`, `curMin = 0` and a spoke of radius 2. -/
theorem RefineCrestSpokeCurvature_boundary_preserved_witness :
    0 < max |(1 : ℝ)| |(0 : ℝ)| ∧
    0 < (Spoke.mk ⟨0, 0, 0⟩ ⟨2, 0, 0⟩).GetRadius ∧
    1 / max |(1 : ℝ)| |(0 : ℝ)| < (Spoke.mk ⟨0, 0, 0⟩ ⟨2, 0, 0⟩).GetRadius ∧
    (RefineCrestSpokeCurvature 1 0 (Spoke.mk ⟨0, 0, 0⟩ ⟨2, 0, 0⟩)).GetBoundaryPoint =
      (Spoke.mk ⟨0, 0, 0⟩ ⟨2, 0, 0⟩).GetBoundaryPoint := by
  have hc : 0 < max |(1 : ℝ)| |(0 : ℝ)| := by norm_num
  have hrad : (Spoke.mk (⟨0, 0, 0⟩ : Point3d) (⟨2, 0, 0⟩ : Vector3d)).GetRadius = 2 := by
    unfold Spoke.GetRadius Vector3d.GetLength
    simp only []
    rw [show (2 : ℝ) ^ 2 + 0 ^ 2 + 0 ^ 2 = 4 from by norm_num]
    rw [show (4 : ℝ) = 2 ^ 2 from by norm_num, Real.sqrt_sq (by norm_num)]
  have hr : 0 < (Spoke.mk ⟨0, 0, 0⟩ ⟨2, 0, 0⟩).GetRadius := by rw [hrad]; norm_num
  have hgt : 1 / max |(1 : ℝ)| |(0 : ℝ)| < (Spoke.mk ⟨0, 0, 0⟩ ⟨2, 0, 0⟩).GetRadius := by
    rw [hrad]; norm_num
  exact ⟨hc, hr, hgt, RefineCrestSpokeCurvature_boundary_preserved 1 0 _ hc hr hgt⟩

/-- C4: calling the refinement entry point with a null model, a null or empty
s-rep, `maxIterations < 1`, or a negative interpolation level fails with an
invalid-argument error, and zero distance-field constructions (the expensive
work) are performed. -/
theorem LogicRun_invalid_input_fails_fast (model : Option ModelNode)
    (srepNode : Option SRepNode) (maxIterations interpolationLevel : ℤ)
    (refineSRep : EllipticalSRep → ModelNode → EllipticalSRep)
    (h : model = none ∨ srepNode = none ∨
      (∃ node, srepNode = some node ∧ node.srep = none) ∨
      (∃ node g, srepNode = some node ∧ node.srep = some g ∧ g.IsEmpty) ∨
      maxIterations < 1 ∨ interpolationLevel < 0) :
    ∃ msg, LogicRun model srepNode maxIterations interpolationLevel refineSRep =
      (Except.error (RefinementError.invalidArgument msg), 0) := by
  rcases model with _ | m
  · exact ⟨_, rfl⟩
  rcases srepNode with _ | node
  · exact ⟨_, rfl⟩
  rcases hs : node.srep with _ | g
  · exact ⟨"Cannot refine an SRep with a null srep", by simp [LogicRun, hs]⟩
  by_cases he : g.IsEmpty
  · exact ⟨"Cannot refine an SRep with a null srep", by simp [LogicRun, hs, he]⟩
  by_cases hm : maxIterations < 1
  · exact ⟨"must have at least one iteration", by simp [LogicRun, hs, he, hm]⟩
  by_cases hi : interpolationLevel < 0
  · exact ⟨"interpolation level must be non-negative", by simp [LogicRun, hs, he, hm, hi]⟩
  exfalso
  rcases h with h | h | ⟨node2, hn, h⟩ | ⟨node2, g2, hn, hg, h⟩ | h | h
  · exact Option.noConfusion h
  · exact Option.noConfusion h
  · rw [← Option.some_inj.mp hn] at h; rw [h] at hs; exact Option.noConfusion hs
  · rw [← Option.some_inj.mp hn] at hg
    rw [hg] at hs
    rw [Option.some_inj.mp hs] at h
    exact he h
  · exact hm h
  · exact hi h

/-- Witness for C4: a null model with otherwise well-formed arguments. -/
theorem LogicRun_invalid_input_fails_fast_witness :
    ∃ msg, LogicRun none (some ⟨none⟩) 5 0 (fun g _ => g) =
      (Except.error (RefinementError.invalidArgument msg), 0) :=
  LogicRun_invalid_input_fails_fast none (some ⟨none⟩) 5 0 (fun g _ => g) (Or.inl rfl)

/-- C5: for a bounding box whose three axis ranges are strictly positive, the
normalized bounds give each axis an interval centered at 0.5 whose length is
that axis's range divided by the dominant range; in particular every axis
attaining the dominant range is mapped exactly to `[0, 1]`. -/
theorem ComputePolyDataToImageDataNewBounds_spec (bounds : Bounds)
    (h0 : 0 < bounds.b1 - bounds.b0) (h1 : 0 < bounds.b3 - bounds.b2)
    (h2 : 0 < bounds.b5 - bounds.b4) :
    ((ComputePolyDataToImageDataNewBounds bounds).b1
        - (ComputePolyDataToImageDataNewBounds bounds).b0
      = (bounds.b1 - bounds.b0) / dominantRange bounds ∧
     (ComputePolyDataToImageDataNewBounds bounds).b0
        + (ComputePolyDataToImageDataNewBounds bounds).b1 = 1) ∧
    ((ComputePolyDataToImageDataNewBounds bounds).b3
        - (ComputePolyDataToImageDataNewBounds bounds).b2
      = (bounds.b3 - bounds.b2) / dominantRange bounds ∧
     (ComputePolyDataToImageDataNewBounds bounds).b2
        + (ComputePolyDataToImageDataNewBounds bounds).b3 = 1) ∧
    ((ComputePolyDataToImageDataNewBounds bounds).b5
        - (ComputePolyDataToImageDataNewBounds bounds).b4
      = (bounds.b5 - bounds.b4) / dominantRange bounds ∧
     (ComputePolyDataToImageDataNewBounds bounds).b4
        + (ComputePolyDataToImageDataNewBounds bounds).b5 = 1) ∧
    (bounds.b1 - bounds.b0 = dominantRange bounds →
      (ComputePolyDataToImageDataNewBounds bounds).b0 = 0 ∧
      (ComputePolyDataToImageDataNewBounds bounds).b1 = 1) ∧
    (bounds.b3 - bounds.b2 = dominantRange bounds →
      (ComputePolyDataToImageDataNewBounds bounds).b2 = 0 ∧
      (ComputePolyDataToImageDataNewBounds bounds).b3 = 1) ∧
    (bounds.b5 - bounds.b4 = dominantRange bounds →
      (ComputePolyDataToImageDataNewBounds bounds).b4 = 0 ∧
      (ComputePolyDataToImageDataNewBounds bounds).b5 = 1) := by
  have h0' : bounds.b1 - bounds.b0 ≠ 0 := ne_of_gt h0
  have h1' : bounds.b3 - bounds.b2 ≠ 0 := ne_of_gt h1
  have h2' : bounds.b5 - bounds.b4 ≠ 0 := ne_of_gt h2
  unfold ComputePolyDataToImageDataNewBounds dominantRange
  dsimp only
  split_ifs with hA hB hC
  · obtain ⟨hab, hac⟩ := hA
    rw [max_eq_left (max_le hab.le hac.le)]
    dsimp only
    refine ⟨⟨?_, by ring⟩, ⟨by ring, by ring⟩, ⟨by ring, by ring⟩, fun _ => ⟨rfl, rfl⟩,
      ?_, ?_⟩
    · rw [div_self h0']; norm_num
    · intro hd
      constructor <;> rw [hd, div_self h0'] <;> norm_num
    · intro hd
      constructor <;> rw [hd, div_self h0'] <;> norm_num
  · obtain ⟨hba, hbc⟩ := hB
    rw [max_eq_left hbc.le, max_eq_right hba.le]
    dsimp only
    refine ⟨⟨?_, ?_⟩, ⟨?_, by ring⟩, ⟨by ring, by ring⟩, ?_, fun _ => ⟨rfl, rfl⟩, ?_⟩
    · field_simp
      ring
    · field_simp
      ring
    · rw [div_self h1']; norm_num
    · intro hd
      constructor <;> rw [hd, div_self h1'] <;> norm_num
    · intro hd
      constructor <;> rw [hd, div_self h1'] <;> norm_num
  · obtain ⟨hca, hcb⟩ := hC
    rw [max_eq_right hcb.le, max_eq_right hca.le]
    dsimp only
    refine ⟨⟨?_, ?_⟩, ⟨?_, ?_⟩, ⟨?_, by ring⟩, ?_, ?_, fun _ => ⟨rfl, rfl⟩⟩
    · field_simp
      ring
    · field_simp
      ring
    · field_simp
      ring
    · field_simp
      ring
    · rw [div_self h2']; norm_num
    · intro hd
      constructor <;> rw [hd, div_self h2'] <;> norm_num
    · intro hd
      constructor <;> rw [hd, div_self h2'] <;> norm_num
  · exfalso
    push_neg at hA hB hC
    rcases le_total (bounds.b1 - bounds.b0) (bounds.b3 - bounds.b2) with h | h
    · have p1 : bounds.b3 - bounds.b2 < bounds.b5 - bounds.b4 := hB h
      have p2 : bounds.b5 - bounds.b4 < bounds.b3 - bounds.b2 := hC (by linarith)
      linarith
    · have p1 : bounds.b1 - bounds.b0 < bounds.b5 - bounds.b4 := hA h
      have p2 : bounds.b5 - bounds.b4 < bounds.b3 - bounds.b2 := hC (by linarith)
      have p3 : bounds.b3 - bounds.b2 < bounds.b5 - bounds.b4 := hB (by linarith)
      linarith

/-- Witness for C5 at the bounds of the spec example, with ranges (4, 2, 1):
the dominant x-axis is mapped exactly to `[0, 1]`. -/
theorem ComputePolyDataToImageDataNewBounds_spec_witness :
    0 < (⟨0, 4, 0, 2, 0, 1⟩ : Bounds).b1 - (⟨0, 4, 0, 2, 0, 1⟩ : Bounds).b0 ∧
    0 < (⟨0, 4, 0, 2, 0, 1⟩ : Bounds).b3 - (⟨0, 4, 0, 2, 0, 1⟩ : Bounds).b2 ∧
    0 < (⟨0, 4, 0, 2, 0, 1⟩ : Bounds).b5 - (⟨0, 4, 0, 2, 0, 1⟩ : Bounds).b4 ∧
    ((⟨0, 4, 0, 2, 0, 1⟩ : Bounds).b1 - (⟨0, 4, 0, 2, 0, 1⟩ : Bounds).b0
        = dominantRange ⟨0, 4, 0, 2, 0, 1⟩ →
      (ComputePolyDataToImageDataNewBounds ⟨0, 4, 0, 2, 0, 1⟩).b0 = 0 ∧
      (ComputePolyDataToImageDataNewBounds ⟨0, 4, 0, 2, 0, 1⟩).b1 = 1) :=
  ⟨by show (0 : ℝ) < 4 - 0; norm_num,
   by show (0 : ℝ) < 2 - 0; norm_num,
   by show (0 : ℝ) < 1 - 0; norm_num,
   (ComputePolyDataToImageDataNewBounds_spec ⟨0, 4, 0, 2, 0, 1⟩
      (by show (0 : ℝ) < 4 - 0; norm_num)
      (by show (0 : ℝ) < 2 - 0; norm_num)
      (by show (0 : ℝ) < 1 - 0; norm_num)).2.2.2.1⟩

theorem ProgressTracker.Increments_eq (st : ProgressTracker) (n : ℕ) :
    st.Increments n = ⟨st.iteration + n, st.totalProgressIterations,
      st.reports ++ List.range' (st.iteration + 1) n⟩ := by
  induction n with
  | zero => simp [ProgressTracker.Increments]
  | succ k ih =>
    show (st.Increments k).IncrementIteration = _
    rw [ih]
    simp only [ProgressTracker.IncrementIteration, ProgressTracker.ReportProgress]
    rw [List.range'_concat]
    have harith : st.iteration + 1 + 1 * k = st.iteration + k + 1 := by ring
    rw [harith, List.append_assoc, ← Nat.add_assoc]

theorem foldl_no_crest (k : ℕ) (l : List ℕ) (st : ProgressTracker)
    (h : ∀ s ∈ l, ¬ isCrestStep (k + 1) s) :
    l.foldl (fun acc s => if isCrestStep (k + 1) s then acc.IncrementIteration else acc) st
      = st := by
  induction l generalizing st with
  | nil => rfl
  | cons a t ih =>
    simp only [List.foldl_cons, if_neg (h a (List.mem_cons_self a t))]
    exact ih st (fun s hs => h s (List.mem_cons_of_mem a hs))

theorem crestStepLoop_spec (S : ℕ) (hS : 1 ≤ S) (st : ProgressTracker) :
    crestStepLoop S st = st.IncrementIteration := by
  obtain ⟨k, rfl⟩ : ∃ k, S = k + 1 := ⟨S - 1, by omega⟩
  unfold crestStepLoop
  have hno : ∀ s ∈ List.range k, ¬ isCrestStep (k + 1) s := by
    intro s hs
    rw [List.mem_range] at hs
    unfold isCrestStep
    omega
  rw [List.range_succ, List.foldl_append, foldl_no_crest k (List.range k) st hno]
  simp [isCrestStep]

theorem crestLinesLoop_spec (numLines numSteps : ℕ) (hS : 1 ≤ numSteps)
    (st : ProgressTracker) :
    crestLinesLoop numLines numSteps st = st.Increments numLines := by
  induction numLines with
  | zero => rfl
  | succ k ih =>
    unfold crestLinesLoop at ih ⊢
    rw [List.range_succ, List.foldl_append, ih]
    simp only [List.foldl_cons, List.foldl_nil]
    rw [crestStepLoop_spec numSteps hS]
    rfl

theorem RunProgress_eq (m L S e1 e2 : ℕ) (hS : 1 ≤ S) :
    RunProgress m L S e1 e2 =
      ⟨2 * m + 2 * L, 2 * m + 2 * L,
        [0] ++ List.range' 1 e1 ++ [m] ++ List.range' (m + 1) e2 ++ [2 * m]
          ++ List.range' (2 * m + 1) (2 * L)⟩ := by
  unfold RunProgress
  simp only [crestLinesLoop_spec L S hS, ProgressTracker.Increments_eq,
    ProgressTracker.ReportProgress, ProgressTracker.SetIteration, one_mul]
  simp only [List.append_assoc, List.singleton_append, List.nil_append]
  rw [show 2 * m + L + 1 = 2 * m + 1 + 1 * L from by ring]
  simp only [List.cons_append]
  have hjoin : List.range' (2 * m + 1) L ++ List.range' (2 * m + 1 + 1 * L) L
      = List.range' (2 * m + 1) (L + L) := List.range'_append (2 * m + 1) L L 1
  rw [hjoin, show L + L = 2 * L from by ring, show (0 : ℕ) + 1 = 1 from rfl]

theorem reportList_bound (m L e1 e2 : ℕ) (he1 : e1 ≤ m) (he2 : e2 ≤ m) :
    ∀ x ∈ [0] ++ List.range' 1 e1 ++ [m] ++ List.range' (m + 1) e2 ++ [2 * m]
        ++ List.range' (2 * m + 1) (2 * L), x ≤ 2 * m + 2 * L := by
  intro x hx
  simp only [List.mem_append, List.mem_singleton, List.mem_range'] at hx
  rcases hx with ((((hx | hx) | hx) | hx) | hx) | hx
  · omega
  · obtain ⟨i, hi, rfl⟩ := hx; omega
  · omega
  · obtain ⟨i, hi, rfl⟩ := hx; omega
  · omega
  · obtain ⟨i, hi, rfl⟩ := hx; omega

theorem reportList_pairwise (m L e1 e2 : ℕ) (he1 : e1 ≤ m) (he2 : e2 ≤ m) :
    List.Pairwise (fun a b : ℕ => a ≤ b)
      ([0] ++ List.range' 1 e1 ++ [m] ++ List.range' (m + 1) e2 ++ [2 * m]
        ++ List.range' (2 * m + 1) (2 * L)) := by
  have hr : ∀ s n : ℕ, List.Pairwise (fun a b : ℕ => a ≤ b) (List.range' s n) :=
    fun s n => (List.pairwise_lt_range' s n).imp le_of_lt
  refine List.pairwise_append.mpr ⟨?_, hr _ _, ?_⟩
  · refine List.pairwise_append.mpr ⟨?_, by simp, ?_⟩
    · refine List.pairwise_append.mpr ⟨?_, hr _ _, ?_⟩
      · refine List.pairwise_append.mpr ⟨?_, by simp, ?_⟩
        · refine List.pairwise_append.mpr ⟨by simp, hr _ _, ?_⟩
          intro x hx y hy
          simp only [List.mem_singleton] at hx
          subst hx
          exact Nat.zero_le y
        · intro x hx y hy
          simp only [List.mem_append, List.mem_singleton, List.mem_range'] at hx hy
          subst hy
          rcases hx with hx | ⟨i, hi, rfl⟩ <;> omega
      · intro x hx y hy
        simp only [List.mem_append, List.mem_singleton, List.mem_range'] at hx hy
        obtain ⟨i, hi, rfl⟩ := hy
        rcases hx with (hx | ⟨j, hj, rfl⟩) | hx <;> omega
    · intro x hx y hy
      simp only [List.mem_append, List.mem_singleton, List.mem_range'] at hx hy
      subst hy
      rcases hx with ((hx | ⟨j, hj, rfl⟩) | hx) | ⟨j, hj, rfl⟩ <;> omega
  · intro x hx y hy
    simp only [List.mem_append, List.mem_singleton, List.mem_range'] at hx hy
    obtain ⟨i, hi, rfl⟩ := hy
    rcases hx with (((hx | ⟨j, hj, rfl⟩) | hx) | ⟨j, hj, rfl⟩) | hx <;> omega

theorem reportList_getLast (m L e1 e2 : ℕ) (hL : 1 ≤ L) :
    ([0] ++ List.range' 1 e1 ++ [m] ++ List.range' (m + 1) e2 ++ [2 * m]
      ++ List.range' (2 * m + 1) (2 * L)).getLast? = some (2 * m + 2 * L) := by
  rw [List.getLast?_append_of_ne_nil _ ((List.range'_ne_nil _).mpr (by omega))]
  rw [List.getLast?_range', if_neg (by omega)]
  congr 1
  omega

/-- C3: over a complete refinement run on a non-empty grid (at least one line
and one step), the sequence of progress-callback values is monotonically
non-decreasing, every value lies in [0, 1], and the final value is exactly 1.
The numbers of successful objective evaluations performed by the up and down
minimizer passes, `e1` and `e2`, are at most `maxIterations` per the
minimizer's contract. -/
theorem progressValues_monotone_bounded_final (m L S e1 e2 : ℕ)
    (hm : 1 ≤ m) (hL : 1 ≤ L) (hS : 1 ≤ S) (he1 : e1 ≤ m) (he2 : e2 ≤ m) :
    List.Pairwise (· ≤ ·) (progressValues m L S e1 e2) ∧
    (∀ q ∈ progressValues m L S e1 e2, 0 ≤ q ∧ q ≤ 1) ∧
    (progressValues m L S e1 e2).getLast? = some 1 := by
  have hrun := RunProgress_eq m L S e1 e2 hS
  unfold progressValues ProgressTracker.values
  rw [hrun]
  dsimp only
  have hTQ : (0 : ℚ) < ((2 * m + 2 * L : ℕ) : ℚ) := by
    rw [show ((0 : ℚ)) = ((0 : ℕ) : ℚ) from rfl, Nat.cast_lt]
    omega
  refine ⟨?_, ?_, ?_⟩
  · refine List.pairwise_map.mpr
      (((reportList_pairwise m L e1 e2 he1 he2).imp) ?_)
    intro a b hab
    gcongr
  · intro q hq
    rw [List.mem_map] at hq
    obtain ⟨i, hi, rfl⟩ := hq
    refine ⟨by positivity, ?_⟩
    rw [div_le_one hTQ]
    exact_mod_cast reportList_bound m L e1 e2 he1 he2 i hi
  · rw [List.getLast?_map, reportList_getLast m L e1 e2 hL]
    simp only [Option.map_some']
    rw [div_self (ne_of_gt hTQ)]

/-- Witness for C3 at `maxIterations = 1`, a 1x1 grid, one successful up
evaluation and no successful down evaluation. -/
theorem progressValues_monotone_bounded_final_witness :
    1 ≤ 1 ∧
    (List.Pairwise (· ≤ ·) (progressValues 1 1 1 1 0) ∧
    (∀ q ∈ progressValues 1 1 1 1 0, 0 ≤ q ∧ q ≤ 1) ∧
    (progressValues 1 1 1 1 0).getLast? = some 1) :=
  ⟨le_rfl, progressValues_monotone_bounded_final 1 1 1 1 0 le_rfl le_rfl le_rfl le_rfl
    (Nat.zero_le 1)⟩

end SRep2
